import Mathlib

/-!
# Verification of the cv-mailer batch dispatch service

Shallow embedding of the two Python source files of the repository
(`app.py`, the Flask request handlers, and `code_sender.py`, the mail
helpers) together with proofs of the behavioural claims about them.

External effects (SMTP connect / EHLO / STARTTLS / LOGIN, the per-recipient
submission, configuration validation and template loading) are modelled by
an explicit environment of outcomes; the handlers become pure functions from
the environment and the parsed request to the JSON response, the HTTP status
code, and a trace of the observable side effects (relay use, sleeps, sends).
-/

namespace CvMailer

/-- Characters removed by Python `str.strip()` with no argument:
space, tab, newline, carriage return, vertical tab, form feed. -/
def isPySpace (c : Char) : Bool :=
  c = ' ' || c = '\t' || c = '\n' || c = '\r' || c = '\x0b' || c = '\x0c'

/-- Drop leading whitespace characters. -/
def dropSpaces : List Char → List Char
  | [] => []
  | c :: cs => if isPySpace c then dropSpaces cs else c :: cs

/-- Model of Python `str.strip()`: remove leading and trailing whitespace. -/
def pyStrip (s : String) : String :=
  String.mk ((dropSpaces (dropSpaces s.data).reverse).reverse)

/-- A recipient record from the inbound batch: `email` (absent modelled as
`""`, matching `recipient.get("email", "")`) and an optional `company`. -/
structure Recipient where
  email : String
  company : Option String
  deriving DecidableEq, Repr

/-- `code_sender.create_greeting`: personalized greeting for a recipient. -/
def create_greeting (recipient : Recipient) : String :=
  let company := pyStrip (recipient.company.getD "")
  if company ≠ "" then company ++ " Hiring Team" else "Hiring Team"

/-- `code_sender.SEND_DELAY`: the fixed pause between sends, in seconds. -/
def SEND_DELAY : ℚ := 1

/-- The standard base64 alphabet. -/
def b64chars : List Char :=
  "ABCDEFGHIJKLMNOPQRSTUVWXYZabcdefghijklmnopqrstuvwxyz0123456789+/".data

/-- The base64 character for a 6-bit group. -/
def encChar (n : Nat) : Char := b64chars.getD n 'A'

/-- Base64 encoding of a byte sequence (standard alphabet, `=` padding); the
encoding applied by `email.encoders.encode_base64` to the attachment payload
(line wrapping of the transfer encoding is not modelled). -/
def b64encodeBytes : List (Fin 256) → List Char
  | [] => []
  | [a] => [encChar (a.val / 4), encChar (a.val % 4 * 16), '=', '=']
  | [a, b] => [encChar (a.val / 4), encChar (a.val % 4 * 16 + b.val / 16),
      encChar (b.val % 16 * 4), '=']
  | a :: b :: c :: rest =>
      encChar (a.val / 4) :: encChar (a.val % 4 * 16 + b.val / 16) ::
      encChar (b.val % 16 * 4 + c.val / 64) :: encChar (c.val % 64) ::
      b64encodeBytes rest

/-- The 6-bit value of a base64 character, if any. -/
def decChar (c : Char) : Option (Fin 64) :=
  let i := b64chars.indexOf c
  if h : i < 64 then some ⟨i, h⟩ else none

/-- First byte reconstructed from a decoded base64 quad. -/
def dByte1 (a b : Fin 64) : Fin 256 :=
  ⟨a.val * 4 + b.val / 16, by have ha := a.isLt; have hb := b.isLt; omega⟩

/-- Second byte reconstructed from a decoded base64 quad. -/
def dByte2 (b c : Fin 64) : Fin 256 :=
  ⟨b.val % 16 * 16 + c.val / 4, by have hb := b.isLt; have hc := c.isLt; omega⟩

/-- Third byte reconstructed from a decoded base64 quad. -/
def dByte3 (c d : Fin 64) : Fin 256 :=
  ⟨c.val % 4 * 64 + d.val, by have hc := c.isLt; have hd := d.isLt; omega⟩

/-- Base64 decoding (standard alphabet, strict `=` padding); the model of
`base64.b64decode`, used both for the request `pdf_file` payload and for
reading back the base64 content-transfer-encoded attachment part. -/
def b64decodeChars : List Char → Option (List (Fin 256))
  | [] => some []
  | c1 :: c2 :: c3 :: c4 :: rest =>
      match decChar c1, decChar c2 with
      | some a, some b =>
        if c3 = '=' then
          if c4 = '=' then
            if rest.isEmpty then some [dByte1 a b] else none
          else none
        else
          match decChar c3 with
          | some c =>
            if c4 = '=' then
              if rest.isEmpty then some [dByte1 a b, dByte2 b c] else none
            else
              match decChar c4 with
              | some d =>
                match b64decodeChars rest with
                | some bs => some (dByte1 a b :: dByte2 b c :: dByte3 c d :: bs)
                | none => none
              | none => none
          | none => none
      | _, _ => none
  | _ => none

/-- Decoding inverts encoding on each 6-bit group. -/
theorem decChar_encChar_fin : ∀ m : Fin 64, decChar (encChar m.val) = some m := by decide

/-- Padding is not an alphabet character. -/
theorem encChar_ne_pad_fin : ∀ m : Fin 64, encChar m.val ≠ '=' := by decide

/-- Decoding inverts encoding on each 6-bit group, `Nat` form. -/
theorem decChar_encChar (n : Nat) (h : n < 64) : decChar (encChar n) = some ⟨n, h⟩ :=
  decChar_encChar_fin ⟨n, h⟩

/-- Padding is not an alphabet character, `Nat` form. -/
theorem encChar_ne_pad (n : Nat) (h : n < 64) : encChar n ≠ '=' :=
  encChar_ne_pad_fin ⟨n, h⟩

/-- Base64 decoding inverts base64 encoding on every byte sequence. -/
theorem b64_roundtrip : ∀ bs : List (Fin 256), b64decodeChars (b64encodeBytes bs) = some bs
  | [] => rfl
  | [a] => by
      have ha := a.isLt
      simp only [b64encodeBytes, b64decodeChars,
        decChar_encChar (a.val / 4) (by omega), decChar_encChar (a.val % 4 * 16) (by omega),
        ite_true, List.isEmpty_nil, dByte1, Option.some.injEq, List.cons.injEq, and_true]
      exact Fin.ext (show a.val / 4 * 4 + a.val % 4 * 16 / 16 = a.val by omega)
  | [a, b] => by
      have ha := a.isLt
      have hb := b.isLt
      simp only [b64encodeBytes, b64decodeChars,
        decChar_encChar (a.val / 4) (by omega),
        decChar_encChar (a.val % 4 * 16 + b.val / 16) (by omega),
        decChar_encChar (b.val % 16 * 4) (by omega),
        if_neg (encChar_ne_pad (b.val % 16 * 4) (by omega)),
        ite_true, List.isEmpty_nil, dByte1, dByte2, Option.some.injEq, List.cons.injEq,
        and_true]
      refine ⟨Fin.ext ?_, Fin.ext ?_⟩
      · show a.val / 4 * 4 + (a.val % 4 * 16 + b.val / 16) / 16 = a.val
        omega
      · show (a.val % 4 * 16 + b.val / 16) % 16 * 16 + b.val % 16 * 4 / 4 = b.val
        omega
  | a :: b :: c :: rest => by
      have ha := a.isLt
      have hb := b.isLt
      have hc := c.isLt
      have ih := b64_roundtrip rest
      simp only [b64encodeBytes, b64decodeChars,
        decChar_encChar (a.val / 4) (by omega),
        decChar_encChar (a.val % 4 * 16 + b.val / 16) (by omega),
        decChar_encChar (b.val % 16 * 4 + c.val / 64) (by omega),
        decChar_encChar (c.val % 64) (by omega),
        if_neg (encChar_ne_pad (b.val % 16 * 4 + c.val / 64) (by omega)),
        if_neg (encChar_ne_pad (c.val % 64) (by omega)),
        ih]
      simp only [dByte1, dByte2, dByte3, Option.some.injEq, List.cons.injEq, and_true]
      refine ⟨Fin.ext ?_, Fin.ext ?_, Fin.ext ?_⟩
      · show a.val / 4 * 4 + (a.val % 4 * 16 + b.val / 16) / 16 = a.val
        omega
      · show (a.val % 4 * 16 + b.val / 16) % 16 * 16 + (b.val % 16 * 4 + c.val / 64) / 4 = b.val
        omega
      · show (b.val % 16 * 4 + c.val / 64) % 4 * 64 + c.val % 64 = c.val
        omega

/-- The body part attached by `build_message`: `MIMEText(body_text, "html", "utf-8")`. -/
structure TextPart where
  body : String
  subtype : String
  charset : String
  deriving DecidableEq, Repr

/-- The attachment part built by `build_message`: a
`MIMEBase("application", "octet-stream")` whose payload was base64
content-transfer-encoded by `encoders.encode_base64`, with a
`Content-Disposition` header. -/
structure BinaryPart where
  maintype : String
  subtype : String
  payload : List Char
  transferEncoding : String
  disposition : String
  deriving DecidableEq, Repr

/-- A part of a MIME multipart message. -/
inductive MimePart where
  | text : TextPart → MimePart
  | binary : BinaryPart → MimePart
  deriving DecidableEq, Repr

/-- The `MIMEMultipart` message built by `build_message`. -/
structure MimeMessage where
  fromAddr : String
  toAddr : String
  subject : String
  parts : List MimePart
  deriving DecidableEq, Repr

/-- Python truthiness of an `Optional[bytes]`: `None` and `b""` are falsy. -/
def pyBytesTruthy : Option (List (Fin 256)) → Bool
  | some l => !l.isEmpty
  | none => false

/-- Python truthiness of an `Optional[str]`: `None` and `""` are falsy. -/
def pyOptStrTruthy : Option String → Bool
  | some s => s ≠ ""
  | none => false

/-- Rendering of an `Optional[str]` inside an f-string: `None` prints as `"None"`. -/
def optStr : Option String → String
  | some s => s
  | none => "None"

/-- `Path(p).name`: the final component of a path. -/
def pathName (p : String) : String := ((p.splitOn "/").reverse).headD ""

/-- `code_sender.build_message`: build a MIME multipart message with optional
attachment. The filesystem is an explicit oracle `fileBytes` (`none` models a
missing file, raising `FileNotFoundError`). -/
def build_message (sender to_email subject body_text : String)
    (attachment_path : Option String) (attachment_data : Option (List (Fin 256)))
    (attachment_filename : Option String)
    (fileBytes : String → Option (List (Fin 256))) : Except String MimeMessage :=
  let base := MimePart.text ⟨body_text, "html", "utf-8"⟩
  if pyBytesTruthy attachment_data then
    let dat := attachment_data.getD []
    let part := MimePart.binary ⟨"application", "octet-stream", b64encodeBytes dat,
      "base64", "attachment; filename=\"" ++ optStr attachment_filename ++ "\""⟩
    .ok ⟨sender, to_email, subject, [base, part]⟩
  else if pyOptStrTruthy attachment_path then
    let path := attachment_path.getD ""
    match fileBytes path with
    | none => .error ("Attachment not found: " ++ path)
    | some fdata =>
      let part := MimePart.binary ⟨"application", "octet-stream", b64encodeBytes fdata,
        "base64", "attachment; filename=\"" ++ pathName path ++ "\""⟩
      .ok ⟨sender, to_email, subject, [base, part]⟩
  else
    .ok ⟨sender, to_email, subject, [base]⟩

/-- On the attachment-from-data branch (nonempty bytes) `build_message`
produces exactly the HTML body part followed by the base64 attachment part. -/
theorem build_message_data_eq (sender to_email subject body_text fname : String)
    (b : List (Fin 256)) (fileBytes : String → Option (List (Fin 256))) (hb : b ≠ []) :
    build_message sender to_email subject body_text none (some b) (some fname) fileBytes
      = .ok ⟨sender, to_email, subject,
          [MimePart.text ⟨body_text, "html", "utf-8"⟩,
           MimePart.binary ⟨"application", "octet-stream", b64encodeBytes b, "base64",
             "attachment; filename=\"" ++ fname ++ "\""⟩]⟩ := by
  simp [build_message, pyBytesTruthy, optStr, hb]

/-- A per-recipient outcome record, as placed in the `results` array. -/
structure SendResult where
  email : String
  status : String
  message : String
  deriving DecidableEq, Repr

/-- The `summary` object of the batch response. -/
structure Summary where
  successful : Nat
  failed : Nat
  total : Nat
  deriving DecidableEq, Repr

/-- The JSON object a handler returns; absent keys are `none`. -/
structure JsonResponse where
  success : Option Bool
  message : Option String
  error : Option String
  results : Option (List SendResult)
  summary : Option Summary
  deriving DecidableEq, Repr

/-- `jsonify({"error": e})`. -/
def errorResponse (e : String) : JsonResponse := ⟨none, none, some e, none, none⟩

/-- `jsonify({"success": False, "error": e})` (single-send failure shape). -/
def failResponse (e : String) : JsonResponse := ⟨some false, none, some e, none, none⟩

/-- Observable side effects of one handler call: whether the relay was
contacted, how many `time.sleep(SEND_DELAY)` calls ran, and the
`(recipient, body)` pairs passed to `send_one`. -/
structure Trace where
  relayAttempted : Bool
  sleeps : Nat
  sends : List (String × String)
  deriving DecidableEq, Repr

/-- The empty trace: no relay contact, no sleeps, no sends. -/
def noTrace : Trace := ⟨false, 0, []⟩

/-- A token of the HTML template: literal text or a named `{placeholder}`. -/
inductive Tok where
  | lit : String → Tok
  | hole : String → Tok
  deriving DecidableEq, Repr

/-- Python `str.format(**kwargs)` over a tokenized template: substitute each
placeholder from the map, raising `KeyError` on an unmapped placeholder. -/
def pyFormat : List Tok → (String → Option String) → Except String String
  | [], _ => .ok ""
  | Tok.lit s :: ts, m =>
      match pyFormat ts m with
      | .ok r => .ok (s ++ r)
      | .error e => .error e
  | Tok.hole n :: ts, m =>
      match m n with
      | some v =>
        match pyFormat ts m with
        | .ok r => .ok (v ++ r)
        | .error e => .error e
      | none => .error ("KeyError: " ++ n)

/-- Outcomes of the external collaborators for one handler call:
`validate_configuration`, `load_email_template`, the four relay-session
steps (`SMTP(...)` connect, `ehlo`, `starttls`, `login`), and the result of
`send_one` for the i-th entry of the raw recipient list (`.error e` models
an exception whose `str` is `e`). -/
structure Env where
  configError : Option String
  template : Except String (List Tok)
  connectError : Option String
  ehloError : Option String
  starttlsError : Option String
  loginError : Option String
  sendOutcome : Nat → Except String Unit

/-- The substitution map used by the batch and single-send renderings:
`format(greeting=…, job_title=…, name=…, phone_number=…, email=sender)`. -/
def substMapBatch (greeting job_title name phone_number email : String) :
    String → Option String := fun k =>
  if k = "greeting" then some greeting
  else if k = "job_title" then some job_title
  else if k = "name" then some name
  else if k = "phone_number" then some phone_number
  else if k = "email" then some email
  else none

/-- The substitution map used by the test-send rendering:
`format(greeting=…, job_title=…)` only. -/
def substMapTest (greeting job_title : String) : String → Option String := fun k =>
  if k = "greeting" then some greeting
  else if k = "job_title" then some job_title
  else none

/-- The loop-invariant data of the batch dispatch loop. -/
structure LoopCtx where
  many : Bool
  tmpl : List Tok
  job_title : String
  name : String
  phone_number : String
  sender_email : String
  outcome : Nat → Except String Unit

/-- The mutable state of the batch dispatch loop. -/
structure BatchState where
  results : List SendResult
  successful : Nat
  failed : Nat
  sleeps : Nat
  sends : List (String × String)
  deriving DecidableEq, Repr

/-- One iteration of the batch loop for one recipient: skip on empty
trimmed email; render the body (a `KeyError` aborts the whole batch, hence
the `.error` case); attempt the send, appending a success or error
`SendResult`; then sleep iff the raw input list had more than one entry. -/
def batchStep (ctx : LoopCtx) (outcome : Except String Unit) (r : Recipient)
    (st : BatchState) : Except (String × BatchState) BatchState :=
  let to_email := pyStrip r.email
  if to_email = "" then .ok st
  else
    let greeting := create_greeting r
    match pyFormat ctx.tmpl
        (substMapBatch greeting ctx.job_title ctx.name ctx.phone_number ctx.sender_email) with
    | .error e => .error (e, st)
    | .ok body =>
      let st1 := { st with sends := st.sends ++ [(to_email, body)] }
      let st2 :=
        match outcome with
        | .ok _ => { st1 with
            results := st1.results ++ [⟨to_email, "success", "Email sent successfully"⟩],
            successful := st1.successful + 1 }
        | .error e => { st1 with
            results := st1.results ++ [⟨to_email, "error", e⟩],
            failed := st1.failed + 1 }
      .ok (if ctx.many then { st2 with sleeps := st2.sleeps + 1 } else st2)

/-- The batch dispatch loop over the remaining recipients, `i` being the
position of the head in the raw input list. -/
def batchLoopAux (ctx : LoopCtx) :
    Nat → List Recipient → BatchState → Except (String × BatchState) BatchState
  | _, [], st => .ok st
  | i, r :: rs, st =>
    match batchStep ctx (ctx.outcome i) r st with
    | .error e => .error e
    | .ok st1 => batchLoopAux ctx (i + 1) rs st1

/-- The parsed JSON body of `POST /api/recipients`; absent string fields are
modelled as their `data.get(…, default)` defaults. -/
structure BatchRequest where
  recipients : List Recipient
  sender_email : String
  app_password : String
  job_title : String
  subject : String
  pdf_file : String
  pdf_filename : String
  name : String
  phone_number : String
  deriving Repr

/-- `app.send_emails`, the handler of `POST /api/recipients`: validation
ladder, base64 decode of the attachment, configuration and template checks,
relay session opening, then the batch dispatch loop. Returns the JSON
response, the HTTP status code, and the side-effect trace. -/
def send_emails (env : Env) (req : BatchRequest) : JsonResponse × Nat × Trace :=
  let sender_email := pyStrip req.sender_email
  let app_password := pyStrip req.app_password
  let job_title := pyStrip req.job_title
  let subject := pyStrip req.subject
  let name := pyStrip req.name
  let phone_number := pyStrip req.phone_number
  if req.recipients.isEmpty then (errorResponse "No recipients provided", 400, noTrace)
  else if sender_email = "" then (errorResponse "Sender email is required", 400, noTrace)
  else if app_password = "" then (errorResponse "App password is required", 400, noTrace)
  else if job_title = "" then (errorResponse "Job title is required", 400, noTrace)
  else if subject = "" then (errorResponse "Subject is required", 400, noTrace)
  else if req.pdf_file = "" then (errorResponse "PDF file is required", 400, noTrace)
  else if name = "" then (errorResponse "Name is required", 400, noTrace)
  else if phone_number = "" then (errorResponse "Phone number is required", 400, noTrace)
  else
    match b64decodeChars req.pdf_file.data with
    | none => (errorResponse "Invalid PDF file data: invalid base64 payload", 400, noTrace)
    | some _pdf_data =>
      match env.configError with
      | some e => (errorResponse ("Configuration error: " ++ e), 500, noTrace)
      | none =>
      match env.template with
      | .error e => (errorResponse ("Template loading error: " ++ e), 500, noTrace)
      | .ok email_template =>
      match env.connectError with
      | some e => (errorResponse ("Unexpected error: " ++ e), 500, ⟨true, 0, []⟩)
      | none =>
      match env.ehloError with
      | some e => (errorResponse ("SMTP error: " ++ e), 500, ⟨true, 0, []⟩)
      | none =>
      match env.starttlsError with
      | some e => (errorResponse ("SMTP error: " ++ e), 500, ⟨true, 0, []⟩)
      | none =>
      match env.loginError with
      | some e => (errorResponse ("SMTP error: " ++ e), 500, ⟨true, 0, []⟩)
      | none =>
      let ctx : LoopCtx := ⟨decide (1 < req.recipients.length), email_template,
        job_title, name, phone_number, sender_email, env.sendOutcome⟩
      match batchLoopAux ctx 0 req.recipients ⟨[], 0, 0, 0, []⟩ with
      | .error (e, st) =>
        (errorResponse ("Unexpected error: " ++ e), 500, ⟨true, st.sleeps, st.sends⟩)
      | .ok st =>
        ({ success := some true,
           message := some ("Email sending completed. Success: " ++ toString st.successful
             ++ ", Failed: " ++ toString st.failed),
           error := none,
           results := some st.results,
           summary := some ⟨st.successful, st.failed, req.recipients.length⟩ },
         200,
         ⟨true, st.sleeps, st.sends⟩)

/-- The parsed JSON body of `POST /api/send-single`. -/
structure SingleRequest where
  recipient : Recipient
  sender_email : String
  app_password : String
  job_title : String
  subject : String
  pdf_file : String
  pdf_filename : String
  name : String
  phone_number : String
  deriving Repr

/-- `app.send_single_email`, the handler of `POST /api/send-single`. Its
failure responses carry `success: False` alongside the error text; any
exception inside the relay block (session opening or submission) is caught
by one `except` reporting `Failed to send email`. -/
def send_single_email (env : Env) (req : SingleRequest) : JsonResponse × Nat × Trace :=
  let to_email := pyStrip req.recipient.email
  let sender_email := pyStrip req.sender_email
  let app_password := pyStrip req.app_password
  let job_title := pyStrip req.job_title
  let subject := pyStrip req.subject
  let name := pyStrip req.name
  let phone_number := pyStrip req.phone_number
  if to_email = "" then (failResponse "Email address is required", 400, noTrace)
  else if sender_email = "" then (failResponse "Sender email is required", 400, noTrace)
  else if app_password = "" then (failResponse "App password is required", 400, noTrace)
  else if job_title = "" then (failResponse "Job title is required", 400, noTrace)
  else if subject = "" then (failResponse "Subject is required", 400, noTrace)
  else if req.pdf_file = "" then (failResponse "PDF file is required", 400, noTrace)
  else if name = "" then (failResponse "Name is required", 400, noTrace)
  else if phone_number = "" then (failResponse "Phone number is required", 400, noTrace)
  else
    match b64decodeChars req.pdf_file.data with
    | none => (failResponse "Invalid PDF file data: invalid base64 payload", 400, noTrace)
    | some _pdf_data =>
      match env.configError with
      | some e => (failResponse ("Configuration error: " ++ e), 500, noTrace)
      | none =>
      match env.template with
      | .error e => (failResponse ("Template loading error: " ++ e), 500, noTrace)
      | .ok email_template =>
      let greeting := create_greeting req.recipient
      match pyFormat email_template
          (substMapBatch greeting job_title name phone_number sender_email) with
      | .error e => (failResponse ("Unexpected error: " ++ e), 500, noTrace)
      | .ok body =>
      match env.connectError with
      | some e => (failResponse ("Failed to send email: " ++ e), 500, ⟨true, 0, []⟩)
      | none =>
      match env.ehloError with
      | some e => (failResponse ("Failed to send email: " ++ e), 500, ⟨true, 0, []⟩)
      | none =>
      match env.starttlsError with
      | some e => (failResponse ("Failed to send email: " ++ e), 500, ⟨true, 0, []⟩)
      | none =>
      match env.loginError with
      | some e => (failResponse ("Failed to send email: " ++ e), 500, ⟨true, 0, []⟩)
      | none =>
      match env.sendOutcome 0 with
      | .error e =>
        (failResponse ("Failed to send email: " ++ e), 500, ⟨true, 0, [(to_email, body)]⟩)
      | .ok _ =>
        ({ success := some true,
           message := some ("Email sent successfully to " ++ to_email),
           error := none, results := none, summary := none },
         200, ⟨true, 0, [(to_email, body)]⟩)

/-- The parsed JSON body of `POST /api/test-email`. -/
structure TestRequest where
  email : String
  sender_email : String
  app_password : String
  job_title : String
  subject : String
  pdf_file : String
  pdf_filename : String
  company : String
  deriving Repr

/-- `app.test_email`, the handler of `POST /api/test-email`. Renders only
`greeting` and `job_title` into the template; every failure response is a
bare `{"error": …}` object, while only the success response carries the
`success` flag and `message`. -/
def test_email (env : Env) (req : TestRequest) : JsonResponse × Nat × Trace :=
  let test_addr := pyStrip req.email
  let sender_email := pyStrip req.sender_email
  let app_password := pyStrip req.app_password
  let job_title := pyStrip req.job_title
  let subject := pyStrip req.subject
  if test_addr = "" then (errorResponse "Email address is required", 400, noTrace)
  else if sender_email = "" then (errorResponse "Sender email is required", 400, noTrace)
  else if app_password = "" then (errorResponse "App password is required", 400, noTrace)
  else if job_title = "" then (errorResponse "Job title is required", 400, noTrace)
  else if subject = "" then (errorResponse "Subject is required", 400, noTrace)
  else if req.pdf_file = "" then (errorResponse "PDF file is required", 400, noTrace)
  else
    match b64decodeChars req.pdf_file.data with
    | none => (errorResponse "Invalid PDF file data: invalid base64 payload", 400, noTrace)
    | some _pdf_data =>
      match env.configError with
      | some e => (errorResponse ("Configuration error: " ++ e), 500, noTrace)
      | none =>
      match env.template with
      | .error e => (errorResponse ("Template loading error: " ++ e), 500, noTrace)
      | .ok email_template =>
      let recipient : Recipient := ⟨test_addr, some req.company⟩
      let greeting := create_greeting recipient
      match pyFormat email_template (substMapTest greeting job_title) with
      | .error e => (errorResponse ("Unexpected error: " ++ e), 500, noTrace)
      | .ok body =>
      match env.connectError with
      | some e => (errorResponse ("Failed to send email: " ++ e), 500, ⟨true, 0, []⟩)
      | none =>
      match env.ehloError with
      | some e => (errorResponse ("Failed to send email: " ++ e), 500, ⟨true, 0, []⟩)
      | none =>
      match env.starttlsError with
      | some e => (errorResponse ("Failed to send email: " ++ e), 500, ⟨true, 0, []⟩)
      | none =>
      match env.loginError with
      | some e => (errorResponse ("Failed to send email: " ++ e), 500, ⟨true, 0, []⟩)
      | none =>
      match env.sendOutcome 0 with
      | .error e =>
        (errorResponse ("Failed to send email: " ++ e), 500, ⟨true, 0, [(test_addr, body)]⟩)
      | .ok _ =>
        ({ success := some true,
           message := some ("Test email sent successfully to " ++ test_addr),
           error := none, results := none, summary := none },
         200, ⟨true, 0, [(test_addr, body)]⟩)

/-- The trimmed emails of the recipients that are not skipped, in input order. -/
def keptEmails (rs : List Recipient) : List String :=
  (rs.filter (fun r => pyStrip r.email ≠ "")).map (fun r => pyStrip r.email)

/-- A recipient with a blank email contributes nothing to `keptEmails`. -/
theorem keptEmails_cons_skip (r : Recipient) (rs : List Recipient)
    (h : pyStrip r.email = "") : keptEmails (r :: rs) = keptEmails rs := by
  simp [keptEmails, List.filter_cons, h]

/-- A recipient with a non-blank email contributes its trimmed email. -/
theorem keptEmails_cons_keep (r : Recipient) (rs : List Recipient)
    (h : pyStrip r.email ≠ "") : keptEmails (r :: rs) = pyStrip r.email :: keptEmails rs := by
  simp [keptEmails, List.filter_cons, h]

/-- What one successful iteration of the batch loop does to the state:
either the recipient is skipped and the state is unchanged, or exactly one
`SendResult` is appended, exactly one of the two counters grows by one, one
send is recorded, and one sleep runs iff the batch had several entries. -/
theorem batchStep_ok_spec (ctx : LoopCtx) (outcome : Except String Unit) (r : Recipient)
    (st stN : BatchState) (h : batchStep ctx outcome r st = .ok stN) :
    (pyStrip r.email = "" ∧ stN = st)
    ∨ (pyStrip r.email ≠ ""
       ∧ stN.results.map SendResult.email = st.results.map SendResult.email ++ [pyStrip r.email]
       ∧ stN.successful + stN.failed = st.successful + st.failed + 1
       ∧ stN.sends.map Prod.fst = st.sends.map Prod.fst ++ [pyStrip r.email]
       ∧ stN.sleeps = st.sleeps + (if ctx.many then 1 else 0)) := by
  by_cases he : pyStrip r.email = ""
  · left
    refine ⟨he, ?_⟩
    simp only [batchStep, he, if_pos rfl] at h
    exact (Except.ok.inj h).symm
  · right
    refine ⟨he, ?_⟩
    simp only [batchStep, if_neg he] at h
    cases hf : pyFormat ctx.tmpl
        (substMapBatch (create_greeting r) ctx.job_title ctx.name ctx.phone_number
          ctx.sender_email) with
    | error e => rw [hf] at h; cases h
    | ok body =>
      rw [hf] at h
      cases outcome with
      | ok u =>
        have hst := (Except.ok.inj h).symm
        subst hst
        cases hm : ctx.many <;> simp [hm] <;> omega
      | error e =>
        have hst := (Except.ok.inj h).symm
        subst hst
        cases hm : ctx.many <;> simp [hm] <;> omega

/-- A failed iteration leaves the state as it was at the start of the
iteration (the `KeyError` escapes before the send is attempted). -/
theorem batchStep_error_spec (ctx : LoopCtx) (outcome : Except String Unit) (r : Recipient)
    (st : BatchState) (e : String) (stE : BatchState)
    (h : batchStep ctx outcome r st = .error (e, stE)) : stE = st := by
  by_cases he : pyStrip r.email = ""
  · simp only [batchStep, he, if_pos rfl] at h
    cases h
  · simp only [batchStep, if_neg he] at h
    cases hf : pyFormat ctx.tmpl
        (substMapBatch (create_greeting r) ctx.job_title ctx.name ctx.phone_number
          ctx.sender_email) with
    | error e2 =>
      rw [hf] at h
      exact ((Prod.mk.injEq _ _ _ _).mp (Except.error.inj h)).2.symm
    | ok body =>
      rw [hf] at h
      cases outcome <;> cases h

/-- What a full successful run of the batch loop does to the state: it
appends one `SendResult` per kept recipient in input order, grows the two
counters by the number of kept recipients in total, records one send per
kept recipient, and sleeps once per kept recipient iff the batch had
several entries. -/
theorem batchLoopAux_ok_spec (ctx : LoopCtx) (rs : List Recipient) :
    ∀ (i : Nat) (st stF : BatchState), batchLoopAux ctx i rs st = .ok stF →
      stF.results.map SendResult.email = st.results.map SendResult.email ++ keptEmails rs
      ∧ stF.successful + stF.failed = st.successful + st.failed + (keptEmails rs).length
      ∧ stF.sends.map Prod.fst = st.sends.map Prod.fst ++ keptEmails rs
      ∧ stF.sleeps = st.sleeps + (if ctx.many then (keptEmails rs).length else 0) := by
  induction rs with
  | nil =>
    intro i st stF h
    simp only [batchLoopAux] at h
    have hst := Except.ok.inj h
    subst hst
    simp [keptEmails]
  | cons r rs ih =>
    intro i st stF h
    simp only [batchLoopAux] at h
    cases hs : batchStep ctx (ctx.outcome i) r st with
    | error e2 => rw [hs] at h; cases h
    | ok st1 =>
      rw [hs] at h
      have hrest := ih (i + 1) st1 stF h
      rcases batchStep_ok_spec ctx (ctx.outcome i) r st st1 hs with ⟨he, hsk⟩ | hkeep
      · subst hsk
        rw [keptEmails_cons_skip r rs he]
        exact hrest
      · obtain ⟨he, hres, hcnt, hsend, hslp⟩ := hkeep
        obtain ⟨ihres, ihcnt, ihsend, ihslp⟩ := hrest
        rw [keptEmails_cons_keep r rs he]
        refine ⟨?_, ?_, ?_, ?_⟩
        · rw [ihres, hres]; simp
        · rw [ihcnt, hcnt]; simp [Nat.add_assoc, Nat.add_comm 1]
        · rw [ihsend, hsend]; simp
        · rw [ihslp, hslp]
          cases hm : ctx.many
          all_goals simp
          all_goals omega

/-- When the batch has at most one entry the loop never sleeps, whether it
completes or aborts. -/
theorem batchLoopAux_sleeps_not_many (ctx : LoopCtx) (hm : ctx.many = false)
    (rs : List Recipient) :
    ∀ (i : Nat) (st : BatchState),
      (∀ stF, batchLoopAux ctx i rs st = .ok stF → stF.sleeps = st.sleeps)
      ∧ (∀ e stE, batchLoopAux ctx i rs st = .error (e, stE) → stE.sleeps = st.sleeps) := by
  induction rs with
  | nil =>
    intro i st
    constructor
    · intro stF h
      simp only [batchLoopAux] at h
      have hst := Except.ok.inj h
      subst hst
      rfl
    · intro e stE h
      simp only [batchLoopAux] at h
      cases h
  | cons r rs ih =>
    intro i st
    have hstep : ∀ st1, batchStep ctx (ctx.outcome i) r st = .ok st1 → st1.sleeps = st.sleeps := by
      intro st1 hs
      rcases batchStep_ok_spec ctx (ctx.outcome i) r st st1 hs with ⟨_, hsk⟩ | ⟨_, _, _, _, hslp⟩
      · rw [hsk]
      · rw [hslp, hm]; simp
    constructor
    · intro stF h
      simp only [batchLoopAux] at h
      cases hs : batchStep ctx (ctx.outcome i) r st with
      | error e2 => rw [hs] at h; cases h
      | ok st1 =>
        rw [hs] at h
        have h1 := ((ih (i + 1) st1).1) stF h
        rw [h1, hstep st1 hs]
    · intro e stE h
      simp only [batchLoopAux] at h
      cases hs : batchStep ctx (ctx.outcome i) r st with
      | error e2 =>
        rw [hs] at h
        have he2 := Except.error.inj h
        subst he2
        exact (batchStep_error_spec ctx (ctx.outcome i) r st e stE hs) ▸ rfl
      | ok st1 =>
        rw [hs] at h
        have h1 := ((ih (i + 1) st1).2) e stE h
        rw [h1, hstep st1 hs]

/-- C1: whenever the batch-send handler returns a results list (so the relay
session opened and the loop completed), that list holds exactly one
`SendResult` per recipient whose email is non-empty after trimming, in input
order; skipped recipients are counted in neither counter (the two counters
sum to the number of results), while the summary total equals the raw input
list length including the skipped entries. -/
theorem batch_one_result_per_kept_recipient (env : Env) (req : BatchRequest)
    (resp : JsonResponse) (code : Nat) (tr : Trace) (rs : List SendResult) (sm : Summary)
    (h : send_emails env req = (resp, code, tr))
    (hres : resp.results = some rs) (hsum : resp.summary = some sm) :
    rs.map SendResult.email = keptEmails req.recipients
    ∧ sm.successful + sm.failed = rs.length
    ∧ sm.total = req.recipients.length := by
  simp only [send_emails] at h
  repeat' split at h
  all_goals injection h with h1 h2
  all_goals subst h1
  any_goals simp [errorResponse] at hres
  rename_i st heq
  have hspec := batchLoopAux_ok_spec _ req.recipients 0 ⟨[], 0, 0, 0, []⟩ st heq
  simp only [List.map_nil, List.nil_append, Nat.zero_add] at hspec
  obtain ⟨hmap, hcnt, hsend, hslp⟩ := hspec
  simp only [Option.some.injEq] at hres hsum
  subst hres
  subst hsum
  refine ⟨hmap, ?_, rfl⟩
  have hlen : (st.results.map SendResult.email).length = (keptEmails req.recipients).length := by
    rw [hmap]
  simp only [List.length_map] at hlen
  simpa [hlen] using hcnt

/-- An environment in which every collaborator succeeds, with a one-token
literal template. -/
def envAllOk : Env := ⟨none, .ok [Tok.lit "B"], none, none, none, none, fun _ => .ok ()⟩

/-- An environment in which relay submission fails for the second entry of
the raw recipient list and succeeds for all the others. -/
def envFail2 : Env := ⟨none, .ok [Tok.lit "B"], none, none, none, none,
  fun i => if i = 1 then .error "relay refused recipient" else .ok ()⟩

/-- An environment in which relay authentication fails. -/
def envLoginFail : Env := ⟨none, .ok [Tok.lit "B"], none, none, none,
  some "535 authentication failed", fun _ => .ok ()⟩

/-- A three-recipient batch request with every required field present. -/
def reqThree : BatchRequest :=
  ⟨[⟨"a@x.com", none⟩, ⟨"b@x.com", some "Bx"⟩, ⟨"c@x.com", none⟩],
   "s@x.com", "pw", "Engineer", "Sub", "AA==", "CV.pdf", "Name", "123"⟩

/-- A two-recipient batch request whose second recipient has a
whitespace-only email. -/
def reqSkip : BatchRequest :=
  ⟨[⟨"a@x.com", none⟩, ⟨"  ", none⟩],
   "s@x.com", "pw", "Engineer", "Sub", "AA==", "CV.pdf", "Name", "123"⟩

/-- C1 witness: on a concrete accepted two-entry batch whose second email is
whitespace-only, the single result's email matches the kept recipient, the
counters sum to the result count, and the total is the raw length 2. -/
theorem batch_one_result_per_kept_recipient_witness :
    ([⟨"a@x.com", "success", "Email sent successfully"⟩] : List SendResult).map
        SendResult.email = keptEmails reqSkip.recipients
    ∧ 1 + 0 = ([⟨"a@x.com", "success", "Email sent successfully"⟩] : List SendResult).length
    ∧ 2 = reqSkip.recipients.length :=
  batch_one_result_per_kept_recipient envAllOk reqSkip
    ⟨some true, some "Email sending completed. Success: 1, Failed: 0", none,
      some [⟨"a@x.com", "success", "Email sent successfully"⟩], some ⟨1, 0, 2⟩⟩
    200 ⟨true, 1, [("a@x.com", "B")]⟩
    [⟨"a@x.com", "success", "Email sent successfully"⟩] ⟨1, 0, 2⟩
    (by decide) (by decide) (by decide)

/-- C2: a failed submission to one recipient appends an error `SendResult`
carrying the failure text and bumps only the failure counter (first
conjunct), after which the loop continues with the next recipient (second
conjunct); concretely, a 3-recipient batch whose second send fails yields
exactly [success, error, success] and summary {successful 2, failed 1,
total 3} (third conjunct). -/
theorem batch_per_recipient_failure_isolated :
    (∀ (ctx : LoopCtx) (r : Recipient) (st : BatchState) (e body : String),
       pyStrip r.email ≠ "" →
       pyFormat ctx.tmpl (substMapBatch (create_greeting r) ctx.job_title ctx.name
         ctx.phone_number ctx.sender_email) = .ok body →
       batchStep ctx (.error e) r st
         = .ok (
            let st2 : BatchState :=
              ⟨st.results ++ [⟨pyStrip r.email, "error", e⟩], st.successful, st.failed + 1,
               st.sleeps, st.sends ++ [(pyStrip r.email, body)]⟩
            if ctx.many then { st2 with sleeps := st2.sleeps + 1 } else st2))
    ∧ (∀ (ctx : LoopCtx) (i : Nat) (r : Recipient) (rest : List Recipient)
         (st st1 : BatchState),
         batchStep ctx (ctx.outcome i) r st = .ok st1 →
         batchLoopAux ctx i (r :: rest) st = batchLoopAux ctx (i + 1) rest st1)
    ∧ send_emails envFail2 reqThree
        = (⟨some true, some "Email sending completed. Success: 2, Failed: 1", none,
            some [⟨"a@x.com", "success", "Email sent successfully"⟩,
                  ⟨"b@x.com", "error", "relay refused recipient"⟩,
                  ⟨"c@x.com", "success", "Email sent successfully"⟩],
            some ⟨2, 1, 3⟩⟩, 200,
           ⟨true, 3, [("a@x.com", "B"), ("b@x.com", "B"), ("c@x.com", "B")]⟩) := by
  refine ⟨?_, ?_, by decide⟩
  · intro ctx r st e body he hf
    simp [batchStep, he, hf]
  · intro ctx i r rest st st1 hs
    simp [batchLoopAux, hs]

/-- C2 witness: one failing iteration on a concrete state appends the error
result, bumps the failure counter, and records the send. -/
theorem batch_per_recipient_failure_isolated_witness :
    batchStep ⟨false, [Tok.lit "B"], "J", "N", "P", "s@x.com", fun _ => .ok ()⟩
        (.error "boom") ⟨"r@x.com", none⟩ ⟨[], 0, 0, 0, []⟩
      = .ok ⟨[⟨"r@x.com", "error", "boom"⟩], 0, 1, 0, [("r@x.com", "B")]⟩ := by
  have h := batch_per_recipient_failure_isolated.1
    ⟨false, [Tok.lit "B"], "J", "N", "P", "s@x.com", fun _ => .ok ()⟩
    ⟨"r@x.com", none⟩ ⟨[], 0, 0, 0, []⟩ "boom" "B" (by decide) rfl
  simpa using h

/-- C3: if opening the relay session fails at any step (connect, EHLO,
STARTTLS, or LOGIN), the batch handler returns a single batch-level error —
no success flag, no results array, no summary — and records no
per-recipient outcome: no sends and no sleeps. -/
theorem session_open_failure_aborts_batch (env : Env) (req : BatchRequest)
    (h : env.connectError ≠ none ∨ env.ehloError ≠ none ∨ env.starttlsError ≠ none
      ∨ env.loginError ≠ none) :
    (send_emails env req).1.results = none
    ∧ (send_emails env req).1.summary = none
    ∧ (send_emails env req).1.success = none
    ∧ (send_emails env req).1.error ≠ none
    ∧ (send_emails env req).2.2.sends = []
    ∧ (send_emails env req).2.2.sleeps = 0 := by
  simp only [send_emails]
  repeat' split
  all_goals first
    | (exact ⟨rfl, rfl, rfl, by simp [errorResponse], rfl, rfl⟩)
    | (exfalso; simp_all)

/-- C3 witness: with failing relay authentication, a concrete fully-valid
batch request yields no results, no sends, no sleeps, and a top-level error. -/
theorem session_open_failure_aborts_batch_witness :
    (send_emails envLoginFail reqThree).1.results = none
    ∧ (send_emails envLoginFail reqThree).1.summary = none
    ∧ (send_emails envLoginFail reqThree).1.success = none
    ∧ (send_emails envLoginFail reqThree).1.error ≠ none
    ∧ (send_emails envLoginFail reqThree).2.2.sends = []
    ∧ (send_emails envLoginFail reqThree).2.2.sleeps = 0 :=
  session_open_failure_aborts_batch envLoginFail reqThree
    (Or.inr (Or.inr (Or.inr (by decide))))

/-- Closes the claim-C4 goal on any handler branch whose response has no
success flag and whose trace has no sleeps. -/
theorem c4_leaf (x l : Nat) {resp : JsonResponse} {tr : Trace}
    (hs : resp.success = none) (hz : tr.sleeps = 0) :
    (resp.success = some true → tr.sleeps = x) ∧ (l = 1 → tr.sleeps = 0) ∧ SEND_DELAY = 1 :=
  ⟨fun hcontra => absurd (hs.symm.trans hcontra) (by simp), fun _ => hz, rfl⟩

/-- C4: when the batch-send handler completes its loop, the pause runs after
every send — including the final one — exactly when the raw input list has
more than one entry (so the sleep count equals the send count then, and is
zero for a single-entry list); a single-entry batch never sleeps on any
path; the fixed pause is 1.0 second. -/
theorem batch_sleep_after_every_send (env : Env) (req : BatchRequest)
    (resp : JsonResponse) (code : Nat) (tr : Trace)
    (h : send_emails env req = (resp, code, tr)) :
    (resp.success = some true →
      tr.sleeps = if 1 < req.recipients.length then tr.sends.length else 0)
    ∧ (req.recipients.length = 1 → tr.sleeps = 0)
    ∧ SEND_DELAY = 1 := by
  simp only [send_emails] at h
  repeat' split at h
  all_goals injection h with h1 h2
  all_goals injection h2 with h2a h2b
  all_goals subst h1
  all_goals subst h2b
  any_goals (apply c4_leaf; rfl; rfl)
  · -- loop aborted by a rendering failure: the trace carries the sleeps so far
    rename_i st heq
    refine ⟨by simp [errorResponse], fun hlen => ?_, rfl⟩
    have hm : decide (1 < req.recipients.length) = false := by
      rw [hlen]; decide
    have hsl := (batchLoopAux_sleeps_not_many _ hm req.recipients 0 ⟨[], 0, 0, 0, []⟩).2
      _ st heq
    simpa using hsl
  · -- loop completed
    rename_i st heq
    have hspec := batchLoopAux_ok_spec _ req.recipients 0 ⟨[], 0, 0, 0, []⟩ st heq
    simp only [List.map_nil, List.nil_append, Nat.zero_add] at hspec
    obtain ⟨hmap, hcnt, hsend, hslp⟩ := hspec
    simp only [decide_eq_true_eq] at hslp
    have hsendlen : st.sends.length = (keptEmails req.recipients).length := by
      have h5 := congrArg List.length hsend
      simpa using h5
    refine ⟨fun _ => ?_, fun hlen => ?_, rfl⟩
    · simp [hslp, hsendlen]
    · have hm : ¬(1 < req.recipients.length) := by omega
      simp [hslp, hm]

/-- C4 witness: on a concrete fully-successful three-recipient batch the
sleep count equals the send count 3 (the raw list has more than one
entry), with the pause also following the final send. -/
theorem batch_sleep_after_every_send_witness :
    (⟨true, 3, [("a@x.com", "B"), ("b@x.com", "B"), ("c@x.com", "B")]⟩ : Trace).sleeps
      = if 1 < reqThree.recipients.length
        then (⟨true, 3,
          [("a@x.com", "B"), ("b@x.com", "B"), ("c@x.com", "B")]⟩ : Trace).sends.length
        else 0 :=
  (batch_sleep_after_every_send envAllOk reqThree
      ⟨some true, some "Email sending completed. Success: 3, Failed: 0", none,
        some [⟨"a@x.com", "success", "Email sent successfully"⟩,
              ⟨"b@x.com", "success", "Email sent successfully"⟩,
              ⟨"c@x.com", "success", "Email sent successfully"⟩],
        some ⟨3, 0, 3⟩⟩
      200 ⟨true, 3, [("a@x.com", "B"), ("b@x.com", "B"), ("c@x.com", "B")]⟩
      (by decide)).1 (by decide)

set_option maxHeartbeats 2000000 in
/-- C7: on every endpoint, a missing or empty required field (recipients,
sender email, app password, job title, subject, attachment payload; plus
name and phone number for batch and single-send, and the recipient email
for single and test-send) yields a 400 validation error with no success,
no results, and an empty side-effect trace: the relay is never contacted
and nothing else happens. -/
theorem validation_before_relay (env : Env) :
    (∀ req : BatchRequest,
       req.recipients = [] ∨ pyStrip req.sender_email = "" ∨ pyStrip req.app_password = ""
         ∨ pyStrip req.job_title = "" ∨ pyStrip req.subject = "" ∨ req.pdf_file = ""
         ∨ pyStrip req.name = "" ∨ pyStrip req.phone_number = "" →
       (send_emails env req).1.error ≠ none ∧ (send_emails env req).1.success ≠ some true
         ∧ (send_emails env req).1.results = none ∧ (send_emails env req).2.1 = 400
         ∧ (send_emails env req).2.2 = noTrace)
    ∧ (∀ req : SingleRequest,
       pyStrip req.recipient.email = "" ∨ pyStrip req.sender_email = ""
         ∨ pyStrip req.app_password = "" ∨ pyStrip req.job_title = ""
         ∨ pyStrip req.subject = "" ∨ req.pdf_file = ""
         ∨ pyStrip req.name = "" ∨ pyStrip req.phone_number = "" →
       (send_single_email env req).1.error ≠ none
         ∧ (send_single_email env req).1.success ≠ some true
         ∧ (send_single_email env req).1.results = none
         ∧ (send_single_email env req).2.1 = 400
         ∧ (send_single_email env req).2.2 = noTrace)
    ∧ (∀ req : TestRequest,
       pyStrip req.email = "" ∨ pyStrip req.sender_email = ""
         ∨ pyStrip req.app_password = "" ∨ pyStrip req.job_title = ""
         ∨ pyStrip req.subject = "" ∨ req.pdf_file = "" →
       (test_email env req).1.error ≠ none ∧ (test_email env req).1.success ≠ some true
         ∧ (test_email env req).1.results = none ∧ (test_email env req).2.1 = 400
         ∧ (test_email env req).2.2 = noTrace) := by
  refine ⟨?_, ?_, ?_⟩
  · intro req h
    simp only [send_emails]
    repeat' split
    all_goals first
      | (refine ⟨?_, ?_, rfl, rfl, rfl⟩; simp [errorResponse]; simp [errorResponse])
      | (exfalso; rcases h with h | h | h | h | h | h | h | h <;> simp_all [List.isEmpty_iff])
  · intro req h
    simp only [send_single_email]
    repeat' split
    all_goals first
      | (refine ⟨?_, ?_, rfl, rfl, rfl⟩; simp [failResponse]; simp [failResponse])
      | (exfalso; rcases h with h | h | h | h | h | h | h | h <;> simp_all)
  · intro req h
    simp only [test_email]
    repeat' split
    all_goals first
      | (refine ⟨?_, ?_, rfl, rfl, rfl⟩; simp [errorResponse]; simp [errorResponse])
      | (exfalso; rcases h with h | h | h | h | h | h <;> simp_all)

/-- A single-send request with every required field present except the
subject, which is whitespace-only. -/
def reqSingleNoSubject : SingleRequest :=
  ⟨⟨"r@x.com", some "Rx"⟩, "s@x.com", "pw", "Engineer", "  ", "AA==", "CV.pdf", "Name", "123"⟩

/-- C7 witness: a concrete single-send request with a blank subject gets a
400 validation error, no results, and an empty trace. -/
theorem validation_before_relay_witness :
    (send_single_email envAllOk reqSingleNoSubject).1.error ≠ none
    ∧ (send_single_email envAllOk reqSingleNoSubject).1.success ≠ some true
    ∧ (send_single_email envAllOk reqSingleNoSubject).1.results = none
    ∧ (send_single_email envAllOk reqSingleNoSubject).2.1 = 400
    ∧ (send_single_email envAllOk reqSingleNoSubject).2.2 = noTrace :=
  (validation_before_relay envAllOk).2.1 reqSingleNoSubject
    (Or.inr (Or.inr (Or.inr (Or.inr (Or.inl (by decide))))))

/-- C5: the greeting builder is total: it returns
`"<company> Hiring Team"` (with the trimmed company) whenever the company
field is present and non-blank after trimming, and `"Hiring Team"` when the
field is absent, empty, or whitespace-only; in particular company `"Acme"`
gives `"Acme Hiring Team"` and company `""` or a missing company gives
`"Hiring Team"`. -/
theorem create_greeting_spec :
    (∀ r : Recipient,
       (pyStrip (r.company.getD "") ≠ "" →
         create_greeting r = pyStrip (r.company.getD "") ++ " Hiring Team")
       ∧ (pyStrip (r.company.getD "") = "" → create_greeting r = "Hiring Team"))
    ∧ create_greeting ⟨"jobs@acme.com", some "Acme"⟩ = "Acme Hiring Team"
    ∧ create_greeting ⟨"jobs@acme.com", some ""⟩ = "Hiring Team"
    ∧ create_greeting ⟨"jobs@acme.com", none⟩ = "Hiring Team" := by
  refine ⟨fun r => ⟨fun h => ?_, fun h => ?_⟩, by decide, by decide, by decide⟩
  · simp [create_greeting, h]
  · simp [create_greeting, h]

/-- C5 witness: a company with surrounding whitespace is trimmed into the
greeting. -/
theorem create_greeting_spec_witness :
    create_greeting ⟨"a@x.com", some " Globex "⟩ = pyStrip " Globex " ++ " Hiring Team" :=
  (create_greeting_spec.1 ⟨"a@x.com", some " Globex "⟩).1 (by decide)

/-- C6: a message built from a sender, recipient, subject, HTML body, and
nonempty attachment bytes plus filename has `From`, `To`, `Subject` as
supplied, exactly one HTML body part in UTF-8, and exactly one attachment
part that is base64 content-transfer-encoded, typed
application/octet-stream, with a
`Content-Disposition: attachment; filename="<name>"` header. -/
theorem build_message_fields (sender to_email subject body_text fname : String)
    (b : List (Fin 256)) (fileBytes : String → Option (List (Fin 256))) (hb : b ≠ []) :
    build_message sender to_email subject body_text none (some b) (some fname) fileBytes
      = .ok ⟨sender, to_email, subject,
          [MimePart.text ⟨body_text, "html", "utf-8"⟩,
           MimePart.binary ⟨"application", "octet-stream", b64encodeBytes b, "base64",
             "attachment; filename=\"" ++ fname ++ "\""⟩]⟩ :=
  build_message_data_eq sender to_email subject body_text fname b fileBytes hb

/-- C6 witness: the message built from the single byte 0x01 and filename
`CV.pdf`, with the attachment payload fully evaluated. -/
theorem build_message_fields_witness :
    build_message "s@x.com" "r@x.com" "Sub" "<p>Hi</p>" none (some [1]) (some "CV.pdf")
        (fun _ => none)
      = .ok ⟨"s@x.com", "r@x.com", "Sub",
          [MimePart.text ⟨"<p>Hi</p>", "html", "utf-8"⟩,
           MimePart.binary ⟨"application", "octet-stream", "AQ==".data, "base64",
             "attachment; filename=\"CV.pdf\""⟩]⟩ :=
  build_message_fields "s@x.com" "r@x.com" "Sub" "<p>Hi</p>" "CV.pdf" [1] (fun _ => none)
    (by decide)

/-- C10: attachment bytes equal to the empty byte string are falsy, so with
no attachment path the message gets no attachment part at all: it consists
of only the HTML body part. -/
theorem build_message_empty_data (sender to_email subject body_text fname : String)
    (fileBytes : String → Option (List (Fin 256))) :
    build_message sender to_email subject body_text none (some []) (some fname) fileBytes
      = .ok ⟨sender, to_email, subject, [MimePart.text ⟨body_text, "html", "utf-8"⟩]⟩ := by
  simp [build_message, pyBytesTruthy, pyOptStrTruthy]

/-- C9: base64 decoding inverts the encoding applied to the attachment
payload, so for every byte string the bytes decoded from the request
payload and re-decoded from the message's base64 attachment part are
reproduced exactly (for nonempty bytes, the part exists and decodes back). -/
theorem attachment_base64_roundtrip (sender to_email subject body_text fname : String)
    (fileBytes : String → Option (List (Fin 256))) (b : List (Fin 256)) :
    b64decodeChars (b64encodeBytes b) = some b
    ∧ (b ≠ [] →
        ∃ part : BinaryPart,
          build_message sender to_email subject body_text none (some b) (some fname) fileBytes
            = .ok ⟨sender, to_email, subject,
                [MimePart.text ⟨body_text, "html", "utf-8"⟩, MimePart.binary part]⟩
          ∧ part.transferEncoding = "base64"
          ∧ b64decodeChars part.payload = some b) := by
  refine ⟨b64_roundtrip b, fun hb => ?_⟩
  exact ⟨⟨"application", "octet-stream", b64encodeBytes b, "base64",
      "attachment; filename=\"" ++ fname ++ "\""⟩,
    build_message_data_eq sender to_email subject body_text fname b fileBytes hb, rfl,
    b64_roundtrip b⟩

/-- C9 witness: the two bytes 0xCA 0xFE survive the round trip, both bare
and through the message's attachment part. -/
theorem attachment_base64_roundtrip_witness :
    b64decodeChars (b64encodeBytes ([202, 254] : List (Fin 256))) = some [202, 254]
    ∧ ∃ part : BinaryPart,
        build_message "s@x.com" "r@x.com" "Sub" "<p>Hi</p>" none (some [202, 254])
            (some "CV.pdf") (fun _ => none)
          = .ok ⟨"s@x.com", "r@x.com", "Sub",
              [MimePart.text ⟨"<p>Hi</p>", "html", "utf-8"⟩, MimePart.binary part]⟩
        ∧ part.transferEncoding = "base64"
        ∧ b64decodeChars part.payload = some [202, 254] :=
  ⟨(attachment_base64_roundtrip "s@x.com" "r@x.com" "Sub" "<p>Hi</p>" "CV.pdf"
      (fun _ => none) [202, 254]).1,
   (attachment_base64_roundtrip "s@x.com" "r@x.com" "Sub" "<p>Hi</p>" "CV.pdf"
      (fun _ => none) [202, 254]).2 (by decide)⟩

/-- `some x` is never `none`. -/
theorem optSomeNe {α : Type} (x : α) : (some x : Option α) ≠ none := fun hc =>
  Option.noConfusion hc

/-- The shape of every `{"error": …}` response: no success flag, no
message, an error text. -/
theorem errShape (e : String) :
    (errorResponse e).success = none ∧ (errorResponse e).message = none
    ∧ (errorResponse e).error ≠ none :=
  ⟨rfl, rfl, optSomeNe e⟩

/-- If rendering a template succeeded, every placeholder occurring in it
was mapped by the substitution. -/
theorem pyFormat_ok_mapped (ts : List Tok) (m : String → Option String) :
    ∀ body, pyFormat ts m = .ok body → ∀ n, Tok.hole n ∈ ts → m n ≠ none := by
  induction ts with
  | nil =>
    intro body hb n hn
    cases hn
  | cons t ts ih =>
    intro body hb n hn
    cases t with
    | lit s =>
      simp only [pyFormat] at hb
      cases hf : pyFormat ts m with
      | error e => rw [hf] at hb; cases hb
      | ok r =>
        rcases List.mem_cons.mp hn with h1 | h1
        · cases h1
        · exact ih r hf n h1
    | hole k =>
      simp only [pyFormat] at hb
      cases hm : m k with
      | none => rw [hm] at hb; cases hb
      | some v =>
        rcases List.mem_cons.mp hn with h1 | h1
        · injection h1 with hk
          subst hk
          simp [hm]
        · cases hf : pyFormat ts m with
          | error e => rw [hm, hf] at hb; cases hb
          | ok r => exact ih r hf n h1

/-- A test-send success presupposes that the template loaded and that it
rendered under the test substitution (greeting and job_title only). -/
theorem test_email_success_format (env : Env) (req : TestRequest)
    (h : (test_email env req).1.success = some true) :
    ∃ tmpl body, env.template = .ok tmpl
      ∧ pyFormat tmpl (substMapTest (create_greeting ⟨pyStrip req.email, some req.company⟩)
          (pyStrip req.job_title)) = .ok body := by
  simp only [test_email] at h
  repeat' split at h
  all_goals simp [errorResponse] at h
  exact ⟨_, _, by assumption, by assumption⟩

/-- The shape of every test-send response: never a results array or
summary; the success path carries the flag and a message and no error, all
failure paths carry an error and neither flag nor message. -/
theorem test_email_response_kind (env : Env) (req : TestRequest) :
    (test_email env req).1.results = none
    ∧ (test_email env req).1.summary = none
    ∧ ((test_email env req).1.success = some true ∧ (test_email env req).1.message ≠ none
         ∧ (test_email env req).1.error = none
       ∨ (test_email env req).1.success = none ∧ (test_email env req).1.message = none
         ∧ (test_email env req).1.error ≠ none) := by
  simp only [test_email]
  repeat' split
  all_goals first
    | exact ⟨rfl, rfl, Or.inr (errShape _)⟩
    | exact ⟨rfl, rfl, Or.inl ⟨rfl, optSomeNe _, rfl⟩⟩

/-- A concrete test-send request with a whitespace-only recipient email and
every other field present. -/
def reqTestNoEmail : TestRequest :=
  ⟨" ", "s@x.com", "pw", "Engineer", "Sub", "AA==", "CV.pdf", ""⟩

/-- C8 counterexample: on the missing-email failure path the test-send
response is a bare error object — it carries no boolean success flag and no
message — refuting the claim that the response reports a success flag plus
message on every failure path. -/
theorem test_email_failure_lacks_success_flag :
    (test_email envAllOk reqTestNoEmail).1.success = none
    ∧ (test_email envAllOk reqTestNoEmail).1.message = none
    ∧ (test_email envAllOk reqTestNoEmail).1.error = some "Email address is required" := by
  decide

/-- C8 (amended): the test-send operation substitutes only the greeting and
job_title placeholders (a template with any other placeholder can never
produce a success response), and its response never contains a results
array or summary; the success path reports the boolean success flag plus a
message and no error, while every failure path reports an error without a
success flag or message. -/
theorem test_email_shape (env : Env) (req : TestRequest) :
    (test_email env req).1.results = none
    ∧ (test_email env req).1.summary = none
    ∧ ((test_email env req).1.success = some true ∧ (test_email env req).1.message ≠ none
         ∧ (test_email env req).1.error = none
       ∨ (test_email env req).1.success = none ∧ (test_email env req).1.message = none
         ∧ (test_email env req).1.error ≠ none)
    ∧ (∀ tmpl n, env.template = .ok tmpl → Tok.hole n ∈ tmpl → n ≠ "greeting" →
         n ≠ "job_title" → (test_email env req).1.success ≠ some true) := by
  obtain ⟨hr, hsm, hk⟩ := test_email_response_kind env req
  refine ⟨hr, hsm, hk, fun tmpl n htm hn hg hj hcontra => ?_⟩
  obtain ⟨tmpl2, body, heqT, heqF⟩ := test_email_success_format env req hcontra
  rw [htm] at heqT
  injection heqT with he
  subst he
  exact pyFormat_ok_mapped tmpl _ body heqF n hn (by simp [substMapTest, hg, hj])

/-- An environment whose template contains a placeholder other than
greeting and job_title. -/
def envHoleName : Env :=
  ⟨none, .ok [Tok.hole "name"], none, none, none, none, fun _ => .ok ()⟩

/-- A fully-populated test-send request. -/
def reqTestOk : TestRequest :=
  ⟨"t@x.com", "s@x.com", "pw", "Engineer", "Sub", "AA==", "CV.pdf", "Acme"⟩

/-- C8 witness: a concrete test-send against a template containing the
placeholder `name` carries no results array and cannot succeed. -/
theorem test_email_shape_witness :
    (test_email envHoleName reqTestOk).1.results = none
    ∧ (test_email envHoleName reqTestOk).1.success ≠ some true :=
  ⟨(test_email_shape envHoleName reqTestOk).1,
   (test_email_shape envHoleName reqTestOk).2.2.2 [Tok.hole "name"] "name" rfl
     (by decide) (by decide) (by decide)⟩

example : pyStrip "  a@x " = "a@x" := by decide

example : create_greeting ⟨"e", some " Acme "⟩ = "Acme Hiring Team" := by decide

example : b64encodeBytes [⟨77, by omega⟩, ⟨97, by omega⟩, ⟨110, by omega⟩] = "TWFu".data := by decide

example : b64decodeChars "TWFu".data = some [⟨77, by omega⟩, ⟨97, by omega⟩, ⟨110, by omega⟩] := by decide

example : b64decodeChars "AA==".data = some [⟨0, by omega⟩] := by decide

end CvMailer
